import Mathlib

/-!
Shallow embedding of `src/berita.py` (SMAN8PTK-Scraper): a news scraper
exposing two HTTP endpoints over a fetch step (`fetch_html`) and a
CSS-selector-based extraction step (`parse_articles`).

The HTML tree is modelled at the granularity the program inspects it:
a listing page is, through `HTMLParser(html).css("div.post-content")`,
a list of `Container`s; each container is, through the three `css_first`
queries (`h3 a`, `.post-meta span`, `p`), an optional title anchor, an
optional date span and an optional description paragraph.  An element
carries its inline content (`Inline`, from which selectolax
`text(strip=True)` is computed) and, for the anchor, its attribute
dictionary (`List (String × Option String)`; a valueless attribute maps
to `none`, exactly as selectolax exposes it).  The selector engine
itself (HTML text → containers) is an uninterpreted parameter
`css : String → List Container`, and the network is an uninterpreted
parameter `env : String → HttpOutcome`.

Python exceptions that the code lets escape (the `KeyError` from
`title_element.attributes['href']` on an anchor with no `href`
attribute) are modelled with `Except String`; `None` returns are
modelled with `Option`.
-/

/-- The ASCII whitespace characters Python `str.strip()` removes. -/
def isPySpace (c : Char) : Bool :=
  c == ' ' || c == '\t' || c == '\n' || c == '\r' || c == '\x0b' || c == '\x0c'

/-- Python `s.strip()`: remove leading and trailing whitespace. -/
def pyStrip (s : String) : String :=
  String.mk (((s.data.dropWhile isPySpace).reverse.dropWhile isPySpace).reverse)

/-- Whether `sep` is a prefix of `l`. -/
def startsWithChars : List Char → List Char → Bool
  | [], _ => true
  | _ :: _, [] => false
  | p :: ps, c :: cs => p == c && startsWithChars ps cs

/-- Worker for `pySplit`: left-to-right scan emitting the piece
accumulated so far (in reverse) at each non-overlapping occurrence of
`sep`.  `fuel` only makes the recursion structural; any
`fuel > l.length` gives the scan's value. -/
def pySplitAux (sep : List Char) : Nat → List Char → List Char → List (List Char)
  | 0, l, acc => [acc.reverse ++ l]
  | fuel + 1, l, acc =>
    match l with
    | [] => [acc.reverse]
    | c :: cs =>
      if startsWithChars sep l then
        acc.reverse :: pySplitAux sep fuel (l.drop sep.length) []
      else
        pySplitAux sep fuel cs (c :: acc)

/-- Python `s.split(sep)` for a non-empty separator: all pieces between
non-overlapping occurrences of `sep`, empties kept; never the empty
list. -/
def pySplit (s sep : String) : List String :=
  (pySplitAux sep.data (s.data.length + 1) s.data []).map String.mk

/-- Inline HTML content of an element, as selectolax sees it: text nodes
and nested tags (a tag carries its name, its attributes and its
children). -/
inductive Inline where
  | txt (s : String)
  | tag (name : String) (attrs : List (String × Option String)) (children : List Inline)

mutual

/-- selectolax `node.text(deep=True, separator="", strip=True)`: the
concatenation, in document order, of every text node's content, each
individually stripped of surrounding whitespace. -/
def inlineTextStrip : Inline → String
  | .txt s => pyStrip s
  | .tag _ _ cs => inlinesTextStrip cs

/-- `inlineTextStrip` over a list of sibling nodes, concatenated. -/
def inlinesTextStrip : List Inline → String
  | [] => ""
  | x :: xs => inlineTextStrip x ++ inlinesTextStrip xs

end

/-- The title anchor (`css_first("h3 a")` result): its inline content and
its attribute dictionary.  A valueless attribute has value `none`. -/
structure TitleElem where
  children : List Inline
  attributes : List (String × Option String)

/-- One `div.post-content` container, viewed through the three
`css_first` sub-queries of the parsing loop: each is `none` when the
sub-element is missing. -/
structure Container where
  titleElem : Option TitleElem
  dateElem : Option (List Inline)
  descElem : Option (List Inline)

/-- One extracted article record (the dict built at lines 31–36 of
`berita.py`).  `link` is `Option String` because the Python value
`title_element.attributes['href']` can be `None` (valueless `href`);
every other field is always a `str`. -/
structure Article where
  title : String
  link : Option String
  date : String
  description : String
deriving DecidableEq

/-- Python dict lookup `attrs[name]`: `none` models a raised `KeyError`
(key absent), `some v` the stored value (itself `Option String`). -/
def lookupAttr (attrs : List (String × Option String)) (name : String) : Option (Option String) :=
  (attrs.find? (fun p => p.1 == name)).map (fun p => p.2)

/-- `title_element.text(strip=True) if title_element else "No Title"`. -/
def titleValue (c : Container) : String :=
  match c.titleElem with
  | some t => inlinesTextStrip t.children
  | none => "No Title"

/-- `date_element.text(strip=True).split('</i>')[-1].strip()`: split the
extracted text on the literal substring, take the trailing segment
(Python `[-1]`; `str.split` never returns an empty list), trim it. -/
def extractDate (children : List Inline) : String :=
  pyStrip ((pySplit (inlinesTextStrip children) "</i>").getLastD "")

/-- The `date` entry: `extractDate` when the date span is present,
`"No Date"` otherwise. -/
def dateValue (c : Container) : String :=
  match c.dateElem with
  | some ch => extractDate ch
  | none => "No Date"

/-- The `description` entry: stripped text of the first paragraph, or
`"No Description"`. -/
def descriptionValue (c : Container) : String :=
  match c.descElem with
  | some ch => inlinesTextStrip ch
  | none => "No Description"

/-- The `link` entry: `title_element.attributes['href'] if title_element
else "#"`.  When the anchor is present but carries no `href` attribute,
the dict lookup raises `KeyError`. -/
def linkValue (c : Container) : Except String (Option String) :=
  match c.titleElem with
  | some t =>
    match lookupAttr t.attributes "href" with
    | some v => .ok v
    | none => .error "KeyError: href"
  | none => .ok (some "#")

/-- The record built for one container (loop body, lines 27–36). -/
def buildArticle (c : Container) : Except String Article :=
  match linkValue c with
  | .error m => .error m
  | .ok v =>
    .ok { title := titleValue c, link := v, date := dateValue c,
          description := descriptionValue c }

/-- The `for article_element in article_elements` loop: build a record
per container, in document order; a raised exception aborts the whole
call. -/
def parseLoop : List Container → Except String (List Article)
  | [] => .ok []
  | c :: cs =>
    match buildArticle c, parseLoop cs with
    | .error m, _ => .error m
    | .ok a, .ok rest => .ok (a :: rest)
    | .ok _, .error m => .error m

/-- Python truthiness of an `Optional[str]`: `None` and `""` are falsy. -/
def truthyOptStr : Option String → Bool
  | none => false
  | some s => !s.isEmpty

/-- `parse_articles` (lines 20–38): `articles_data = []`; `if html:` run
the extraction loop over `tree.css("div.post-content")`; return the
accumulated list.  The selector engine is the parameter `css`. -/
def parse_articles (css : String → List Container) (html : Option String) :
    Except String (List Article) :=
  if truthyOptStr html then parseLoop (css (html.getD "")) else .ok []

/-- What the network does for a given URL: either `requests.get` raises a
transport-level `RequestException`, or it yields a response with a
status code and a body. -/
inductive HttpOutcome where
  | transportError (msg : String)
  | response (status : Nat) (body : String)

/-- `fetch_html` (lines 10–18): `requests.get` inside
`try`/`except RequestException`; `response.raise_for_status()` raises
`HTTPError` (a `RequestException`) exactly when `status_code >= 400`
(curl_cffi: `ok` is `status_code < 400`), otherwise `response.text` is
returned.  Any caught exception returns `None`. -/
def fetch_html (env : String → HttpOutcome) (url : String) : Option String :=
  match env url with
  | .transportError _ => none
  | .response status body => if 400 ≤ status then none else some body

/-- `BASE_URL` (line 8). -/
def BASE_URL : String := "https://sman8ptk.sch.id/berita"

/-- The f-string `f"{BASE_URL}?page={page}"` (lines 47 and 64). -/
def scrape_url (page : Int) : String :=
  BASE_URL ++ "?page=" ++ toString page

/-- The `/scrape-berita` handler body (lines 47–53): fetch the page URL;
if the body is truthy, parse it, else return `[]`. -/
def scrape_berita (env : String → HttpOutcome) (css : String → List Container)
    (page : Int) : Except String (List Article) :=
  if truthyOptStr (fetch_html env (scrape_url page)) then
    parse_articles css (fetch_html env (scrape_url page))
  else .ok []

/-- The HTTP response the caller of an endpoint observes: a 200 with a
JSON array, a 422 parameter-validation rejection, or a 500 from an
uncaught handler exception. -/
inductive ApiResult where
  | ok (articles : List Article)
  | validationError
  | serverError (msg : String)
deriving DecidableEq

/-- The FastAPI boundary of `GET /scrape-berita` (line 41):
`Query(1, ge=1)` rejects `page < 1` with a 422 validation error before
the handler body runs, so no fetch happens; otherwise the handler runs
(an escaped exception becoming a 500).  The second component records the
URLs fetched while serving the request, in order. -/
def scrape_berita_endpoint (env : String → HttpOutcome) (css : String → List Container)
    (page : Int) : ApiResult × List String :=
  if 1 ≤ page then
    match scrape_berita env css page with
    | .ok l => (.ok l, [scrape_url page])
    | .error m => (.serverError m, [scrape_url page])
  else (.validationError, [])

/-- The `while True` loop of `scrape_berita_all` (lines 61–72), indexed
by fuel (the Python loop has no intrinsic bound; `none` means the loop
ran for more than `fuel` iterations).  Per iteration: fetch
`f"{BASE_URL}?page={page_number}"`; break if the body is falsy; parse;
break if no articles; extend the accumulator and advance the page
counter by 1.  `trace` records every URL fetched, in order. -/
def scrapeAllAux (env : String → HttpOutcome) (css : String → List Container) :
    Nat → Int → List Article → List String →
    Option (Except String (List Article) × List String)
  | 0, _, _, _ => none
  | fuel + 1, page, acc, trace =>
    if truthyOptStr (fetch_html env (scrape_url page)) then
      match parse_articles css (fetch_html env (scrape_url page)) with
      | .error m => some (.error m, trace ++ [scrape_url page])
      | .ok arts =>
        if arts.isEmpty then some (.ok acc, trace ++ [scrape_url page])
        else scrapeAllAux env css fuel (page + 1) (acc ++ arts) (trace ++ [scrape_url page])
    else some (.ok acc, trace ++ [scrape_url page])

/-- The `/scrape-berita/all` handler body (lines 61–77): run the loop
from page 1 with empty accumulator. -/
def scrape_berita_all (env : String → HttpOutcome) (css : String → List Container)
    (fuel : Nat) : Option (Except String (List Article) × List String) :=
  scrapeAllAux env css fuel 1 [] []

/-- The FastAPI boundary of `GET /scrape-berita/all` (no parameters, so
no validation): a normal return is a 200 array, an escaped exception a
500. -/
def scrape_berita_all_endpoint (env : String → HttpOutcome) (css : String → List Container)
    (fuel : Nat) : Option (ApiResult × List String) :=
  (scrape_berita_all env css fuel).map (fun r =>
    (match r.1 with
     | .ok l => ApiResult.ok l
     | .error m => ApiResult.serverError m, r.2))

/-! ## Derived definitions used to state the claims -/

deriving instance DecidableEq for Except

/-- A container is href-safe when its title anchor, if present, carries
an `href` attribute with a value: exactly the condition under which the
`link` entry is built without a `KeyError` and is a string. -/
def hrefSafe (c : Container) : Bool :=
  match c.titleElem with
  | none => true
  | some t =>
    match lookupAttr t.attributes "href" with
    | some (some _) => true
    | some none => false
    | none => false

/-- The record an href-safe container yields (total companion of
`buildArticle`). -/
def buildArticleD (c : Container) : Article :=
  { title := titleValue c
    link :=
      match c.titleElem with
      | some t => (lookupAttr t.attributes "href").getD none
      | none => some "#"
    date := dateValue c
    description := descriptionValue c }

/-- Page `p`, then page `p+1`, …: the concatenation of `k` consecutive
per-page article lists in ascending page order. -/
def concatPages (L : Int → List Article) (p : Int) : Nat → List Article
  | 0 => []
  | k + 1 => L p ++ concatPages L (p + 1) k

/-- The listing URLs of `k` consecutive pages starting at page `p`. -/
def fetchedUrls (p : Int) : Nat → List String
  | 0 => []
  | k + 1 => scrape_url p :: fetchedUrls (p + 1) k

/-- Page `page` is good for the all-pages loop: its fetch result is
truthy and parses to the non-empty list `l`. -/
abbrev goodPage (env : String → HttpOutcome) (css : String → List Container)
    (page : Int) (l : List Article) : Prop :=
  truthyOptStr (fetch_html env (scrape_url page)) = true ∧
  parse_articles css (fetch_html env (scrape_url page)) = .ok l ∧ l ≠ []

/-- Page `page` stops the all-pages loop: its fetch result is falsy, or
it parses to zero articles. -/
abbrev stopPage (env : String → HttpOutcome) (css : String → List Container)
    (page : Int) : Prop :=
  truthyOptStr (fetch_html env (scrape_url page)) = false ∨
  parse_articles css (fetch_html env (scrape_url page)) = .ok []

/-! ## Helper lemmas -/

theorem buildArticle_safe (c : Container) (h : hrefSafe c = true) :
    buildArticle c = .ok (buildArticleD c) := by
  obtain ⟨te, de, pe⟩ := c
  cases te with
  | none => rfl
  | some t =>
    cases hl : lookupAttr t.attributes "href" with
    | none => simp [hrefSafe, hl] at h
    | some v =>
      cases v with
      | none => simp [hrefSafe, hl] at h
      | some s => simp [buildArticle, buildArticleD, linkValue, hl]

theorem parseLoop_safe (l : List Container) (h : ∀ c ∈ l, hrefSafe c = true) :
    parseLoop l = .ok (l.map buildArticleD) := by
  induction l with
  | nil => rfl
  | cons c cs ih =>
    have hc := buildArticle_safe c (h c (List.mem_cons_self c cs))
    have hcs := ih (fun x hx => h x (List.mem_cons_of_mem c hx))
    simp [parseLoop, hc, hcs]

theorem fetchedUrls_length (p : Int) (k : Nat) : (fetchedUrls p k).length = k := by
  induction k generalizing p with
  | zero => rfl
  | succ k ih => simp [fetchedUrls, ih]

/-- Master run lemma for the all-pages loop: after `k` good pages
starting at `p` and one stopping page `p + k`, the loop returns the
accumulated concatenation in ascending page order, having fetched
exactly the `k + 1` consecutive listing URLs, provided the fuel covers
the `k + 1` iterations. -/
theorem scrapeAllAux_run (env : String → HttpOutcome) (css : String → List Container)
    (L : Int → List Article) :
    ∀ (k : Nat) (p : Int) (acc : List Article) (trace : List String) (fuel : Nat),
    (∀ i : Nat, i < k → goodPage env css (p + i) (L (p + i))) →
    stopPage env css (p + k) →
    k < fuel →
    scrapeAllAux env css fuel p acc trace =
      some (.ok (acc ++ concatPages L p k), trace ++ fetchedUrls p (k + 1)) := by
  intro k
  induction k with
  | zero =>
    intro p acc trace fuel hgood hstop hfuel
    obtain ⟨f, rfl⟩ : ∃ f, fuel = f + 1 := ⟨fuel - 1, by omega⟩
    simp only [Nat.cast_zero, add_zero] at hstop
    rcases hstop with h | h
    · simp [scrapeAllAux, h, concatPages, fetchedUrls]
    · cases ht : truthyOptStr (fetch_html env (scrape_url p)) with
      | false => simp [scrapeAllAux, ht, concatPages, fetchedUrls]
      | true => simp [scrapeAllAux, ht, h, concatPages, fetchedUrls]
  | succ k ih =>
    intro p acc trace fuel hgood hstop hfuel
    obtain ⟨f, rfl⟩ : ∃ f, fuel = f + 1 := ⟨fuel - 1, by omega⟩
    have hg0 := hgood 0 (Nat.succ_pos k)
    simp only [Nat.cast_zero, add_zero] at hg0
    obtain ⟨ht, hp, hne⟩ := hg0
    have hempty : (L p).isEmpty = false := by
      cases hLp : L p with
      | nil => exact absurd hLp hne
      | cons a as => rfl
    have hgood' : ∀ i : Nat, i < k → goodPage env css (p + 1 + i) (L (p + 1 + i)) := by
      intro i hi
      have h := hgood (i + 1) (by omega)
      have e : p + ((i : Nat) + 1 : Int) = p + 1 + i := by ring
      rw [Nat.cast_add, Nat.cast_one] at h
      rw [e] at h
      exact h
    have hstop' : stopPage env css (p + 1 + k) := by
      have e : p + ((k : Nat) + 1 : Int) = p + 1 + k := by ring
      rw [Nat.cast_add, Nat.cast_one, e] at hstop
      exact hstop
    have hrec := ih (p + 1) (acc ++ L p) (trace ++ [scrape_url p]) f hgood' hstop' (by omega)
    simp only [scrapeAllAux, ht, hp, hempty, if_true, Bool.false_eq_true, if_false]
    rw [hrec]
    simp [concatPages, fetchedUrls, List.append_assoc]

/-! ## Concrete fixtures for witnesses and counterexamples -/

/-- A fully-populated container: valued `href`, an icon tag inside the
date span, a description paragraph. -/
def containerFull : Container :=
  { titleElem := some { children := [Inline.txt " Judul Berita "],
                        attributes := [("href", some "https://sman8ptk.sch.id/berita/1")] }
    dateElem := some [Inline.tag "i" [("class", some "far fa-calendar")] [],
                      Inline.txt " 12 March 2024 "]
    descElem := some [Inline.txt "Ringkasan berita"] }

/-- A container missing all three optional sub-elements. -/
def containerBare : Container :=
  { titleElem := none, dateElem := none, descElem := none }

/-- A container whose title anchor exists but has no `href` attribute:
`title_element.attributes['href']` raises `KeyError` on it. -/
def containerNoHref : Container :=
  { titleElem := some { children := [Inline.txt "Tanpa tautan"], attributes := [] }
    dateElem := none, descElem := none }

/-- A selector engine finding the two well-formed containers in the page
whose text is `"w"` and nothing elsewhere. -/
def cssC1 : String → List Container :=
  fun s => if s = "w" then [containerFull, containerBare] else []

/-- A selector engine finding the href-less container in the page whose
text is `"x"` and nothing elsewhere. -/
def cssBad : String → List Container :=
  fun s => if s = "x" then [containerNoHref] else []

/-! ## Claims about the parser and the fetcher -/

/-- Claim C1, amended.  For every container of the parsed page, a record
with all four fields is built and the fixed placeholders ("No Title",
"#", "No Date", "No Description") are substituted whenever the
corresponding sub-element is missing; provided every present title
anchor carries an `href` attribute with a value, the parser never fails
and every `link` is a string.  (As literally stated the claim is false:
a present anchor without `href` makes the parser raise `KeyError`, see
the counterexample.) -/
theorem parse_articles_placeholder_fields (css : String → List Container) (html : String)
    (hne : html ≠ "") (hsafe : ∀ c ∈ css html, hrefSafe c = true) :
    parse_articles css (some html) = .ok ((css html).map buildArticleD) ∧
    (∀ c ∈ css html, ∃ s, (buildArticleD c).link = some s) ∧
    (∀ c : Container, c.titleElem = none →
      (buildArticleD c).title = "No Title" ∧ (buildArticleD c).link = some "#") ∧
    (∀ c : Container, c.dateElem = none → (buildArticleD c).date = "No Date") ∧
    (∀ c : Container, c.descElem = none → (buildArticleD c).description = "No Description") := by
  refine ⟨?_, ?_, ?_, ?_, ?_⟩
  · have hb : html.isEmpty = false := by
      cases he : html.isEmpty
      · rfl
      · exact absurd ((String.isEmpty_iff html).mp he) hne
    simp [parse_articles, truthyOptStr, hb, parseLoop_safe _ hsafe]
  · intro c hc
    have h := hsafe c hc
    obtain ⟨te, de, pe⟩ := c
    cases te with
    | none => exact ⟨"#", rfl⟩
    | some t =>
      cases hl : lookupAttr t.attributes "href" with
      | none => simp [hrefSafe, hl] at h
      | some v =>
        cases v with
        | none => simp [hrefSafe, hl] at h
        | some s => exact ⟨s, by simp [buildArticleD, hl]⟩
  · intro c h
    obtain ⟨te, de, pe⟩ := c
    cases h
    exact ⟨rfl, rfl⟩
  · intro c h
    obtain ⟨te, de, pe⟩ := c
    cases h
    exact rfl
  · intro c h
    obtain ⟨te, de, pe⟩ := c
    cases h
    exact rfl

/-- Claim C1 witness: a page with one full container and one bare
container parses to the extracted record followed by the all-placeholder
record. -/
theorem parse_articles_placeholder_fields_witness :
    parse_articles cssC1 (some "w") =
      .ok [{ title := "Judul Berita", link := some "https://sman8ptk.sch.id/berita/1",
             date := "12 March 2024", description := "Ringkasan berita" },
           { title := "No Title", link := some "#", date := "No Date",
             description := "No Description" }] := by
  have h := parse_articles_placeholder_fields cssC1 "w" (by decide) (by decide)
  rw [h.1]
  decide

/-- Claim C1 counterexample: on a container whose title anchor has no
`href` attribute, the parser fails (the Python code raises `KeyError`)
instead of building a record, so the claim as stated is false. -/
theorem parse_articles_keyerror_cex :
    parse_articles cssBad (some "x") = .error "KeyError: href" := by rfl

/-- Claim C4, amended.  On a transport-level error or a 4xx/5xx HTTP
status the fetcher returns the absence signal `none` instead of
propagating the exception; a response with status below 400 — including
non-2xx statuses such as 304, contrary to the claim as stated — returns
the body. -/
theorem fetch_html_error_absence (env : String → HttpOutcome) (url : String) :
    (∀ m, env url = .transportError m → fetch_html env url = none) ∧
    (∀ status body, env url = .response status body → 400 ≤ status →
      fetch_html env url = none) ∧
    (∀ status body, env url = .response status body → status < 400 →
      fetch_html env url = some body) := by
  refine ⟨?_, ?_, ?_⟩
  · intro m h
    simp [fetch_html, h]
  · intro status body h hs
    simp [fetch_html, h, hs]
  · intro status body h hs
    simp only [fetch_html, h]
    rw [if_neg (by omega)]

/-- Claim C4 witness: a transport error and a 404 produce the absence
signal; a 200 produces the body. -/
theorem fetch_html_error_absence_witness :
    fetch_html (fun _ => HttpOutcome.transportError "timeout") BASE_URL = none ∧
    fetch_html (fun _ => HttpOutcome.response 404 "not found") BASE_URL = none ∧
    fetch_html (fun _ => HttpOutcome.response 200 "body") BASE_URL = some "body" :=
  ⟨(fetch_html_error_absence (fun _ => HttpOutcome.transportError "timeout") BASE_URL).1
      "timeout" rfl,
   (fetch_html_error_absence (fun _ => HttpOutcome.response 404 "not found") BASE_URL).2.1
      404 "not found" rfl (by omega),
   (fetch_html_error_absence (fun _ => HttpOutcome.response 200 "body") BASE_URL).2.2
      200 "body" rfl (by omega)⟩

/-- Claim C4 counterexample: a 304 response is not a success (non-2xx),
yet `raise_for_status` does not raise below 400, so the fetcher returns
the body rather than the absence signal — the claim as stated is
false. -/
theorem fetch_html_non2xx_cex :
    fetch_html (fun _ => HttpOutcome.response 304 "cached") BASE_URL = some "cached" := by rfl

/-- A container whose date span has raw markup
`<i class="icon"></i>12 March 2024`. -/
def dateContainer : Container :=
  { titleElem := some { children := [Inline.txt "Judul"],
                        attributes := [("href", some "https://sman8ptk.sch.id/berita/7")] }
    dateElem := some [Inline.tag "i" [("class", some "icon")] [],
                      Inline.txt "12 March 2024"]
    descElem := some [Inline.txt "Desc"] }

/-- Claim C7: on a date span whose raw markup is
`<i class="icon"></i>12 March 2024`, the extracted text is split on the
literal `"</i>"`, the trailing segment taken and trimmed, and the parsed
record's date is exactly `"12 March 2024"`. -/
theorem parse_date_extraction_example :
    parse_articles (fun s => if s = "d" then [dateContainer] else []) (some "d") =
      .ok [{ title := "Judul", link := some "https://sman8ptk.sch.id/berita/7",
             date := "12 March 2024", description := "Desc" }] := by decide

/-- Claim C8: the parser yields the empty sequence on absent input, and
likewise on any HTML text with zero matching containers. -/
theorem parse_articles_empty_inputs (css : String → List Container) (html : String)
    (hz : css html = []) :
    parse_articles css none = .ok [] ∧ parse_articles css (some html) = .ok [] := by
  constructor
  · rfl
  · cases he : html.isEmpty with
    | true => simp [parse_articles, truthyOptStr, he]
    | false => simp [parse_articles, truthyOptStr, he, hz, parseLoop]

/-- Claim C8 witness: a selector engine matching nothing gives the empty
list both on absent input and on a concrete page. -/
theorem parse_articles_empty_inputs_witness :
    parse_articles (fun _ => ([] : List Container)) none = .ok [] ∧
    parse_articles (fun _ => ([] : List Container)) (some "page") = .ok [] :=
  parse_articles_empty_inputs (fun _ => []) "page" rfl

/-! ## Claims about the endpoints -/

/-- Claim C2, amended.  For every page ≥ 1 the single-page endpoint
serves a 200 array after exactly one fetch, and a failed fetch and a
fetched page with zero containers produce the same empty array with no
distinction surfaced — provided every container parsed from the fetched
body has an `href`-bearing title anchor whenever the anchor is present.
(As literally stated the claim is false: a container whose present title
anchor lacks `href` makes the handler raise, see the counterexample.) -/
theorem scrape_berita_total (env : String → HttpOutcome) (css : String → List Container)
    (page : Int) (hp : 1 ≤ page)
    (hsafe : ∀ c ∈ css ((fetch_html env (scrape_url page)).getD ""), hrefSafe c = true) :
    (∃ l, scrape_berita_endpoint env css page = (.ok l, [scrape_url page])) ∧
    (fetch_html env (scrape_url page) = none →
      scrape_berita_endpoint env css page = (.ok [], [scrape_url page])) ∧
    (∀ b, fetch_html env (scrape_url page) = some b → css b = [] →
      scrape_berita_endpoint env css page = (.ok [], [scrape_url page])) := by
  cases hf : fetch_html env (scrape_url page) with
  | none =>
    have hh : scrape_berita env css page = .ok [] := by
      simp [scrape_berita, hf, truthyOptStr]
    have hend : scrape_berita_endpoint env css page = (.ok [], [scrape_url page]) := by
      simp [scrape_berita_endpoint, hp, hh]
    exact ⟨⟨[], hend⟩, fun _ => hend, fun b hb => Option.noConfusion hb⟩
  | some b =>
    cases hbe : b.isEmpty with
    | true =>
      have hh : scrape_berita env css page = .ok [] := by
        simp [scrape_berita, hf, truthyOptStr, hbe]
      have hend : scrape_berita_endpoint env css page = (.ok [], [scrape_url page]) := by
        simp [scrape_berita_endpoint, hp, hh]
      refine ⟨⟨[], hend⟩, ?_, fun b2 hb2 hz => hend⟩
      intro h
      exact Option.noConfusion h
    | false =>
      have hsafe2 : ∀ c ∈ css b, hrefSafe c = true := by
        rw [hf] at hsafe
        simpa using hsafe
      have hh : scrape_berita env css page = .ok ((css b).map buildArticleD) := by
        simp [scrape_berita, hf, truthyOptStr, hbe, parse_articles,
              parseLoop_safe _ hsafe2]
      refine ⟨⟨(css b).map buildArticleD, by simp [scrape_berita_endpoint, hp, hh]⟩, ?_, ?_⟩
      · intro h
        exact Option.noConfusion h
      · intro b2 hb2 hz
        injection hb2 with hb2
        subst hb2
        have hnil : (css b).map buildArticleD = [] := by rw [hz]; rfl
        simp [scrape_berita_endpoint, hp, hh, hnil]

/-- The network for the C2 witness: page 2 has the well-formed listing
`"w"`, everything else is down. -/
def envC2 : String → HttpOutcome :=
  fun u => if u = scrape_url 2 then .response 200 "w" else .transportError "down"

/-- Claim C2 witness: page 2 against the well-formed listing yields a
200 array after one fetch. -/
theorem scrape_berita_total_witness :
    ∃ l, scrape_berita_endpoint envC2 cssC1 2 = (ApiResult.ok l, [scrape_url 2]) :=
  (scrape_berita_total envC2 cssC1 2 (by decide) (by decide)).1

/-- The network for the counterexamples: every URL serves the page whose
text is `"x"` (whose only container has an href-less anchor). -/
def envBad : String → HttpOutcome := fun _ => .response 200 "x"

/-- Claim C2 counterexample: with page 1 serving a container whose title
anchor has no `href`, the handler raises (`KeyError` escapes, an HTTP
500), so "never fails or raises" is false as stated. -/
theorem scrape_berita_raises_cex :
    scrape_berita_endpoint envBad cssBad 1 =
      (.serverError "KeyError: href", [scrape_url 1]) := by rfl

/-- Claim C3: a request with `page < 1` is rejected by the `Query(ge=1)`
parameter validation at the boundary and no fetch is performed (the
fetched-URL trace is empty). -/
theorem scrape_berita_rejects_low_page (env : String → HttpOutcome)
    (css : String → List Container) (page : Int) (hp : page < 1) :
    scrape_berita_endpoint env css page = (.validationError, []) := by
  have h : ¬ (1 ≤ page) := by omega
  simp [scrape_berita_endpoint, h]

/-- Claim C3 witness: page 0 is rejected with no fetch. -/
theorem scrape_berita_rejects_low_page_witness :
    scrape_berita_endpoint (fun _ => HttpOutcome.transportError "down") cssC1 0 =
      (ApiResult.validationError, []) :=
  scrape_berita_rejects_low_page (fun _ => HttpOutcome.transportError "down") cssC1 0
    (by decide)

/-- Claim C5: after `N` good pages (page `1 + i` parses to the non-empty
list `L (1 + i)`) and a stopping page `1 + N` (fetch fails or parses to
zero articles), all-pages retrieval returns exactly the concatenation of
the per-page lists in ascending page order. -/
theorem scrape_all_concat_pages (env : String → HttpOutcome) (css : String → List Container)
    (L : Int → List Article) (N : Nat) (fuel : Nat)
    (hgood : ∀ i : Nat, i < N → goodPage env css (1 + i) (L (1 + i)))
    (hstop : stopPage env css (1 + N))
    (hfuel : N < fuel) :
    scrape_berita_all env css fuel =
      some (.ok (concatPages L 1 N), fetchedUrls 1 (N + 1)) := by
  have h := scrapeAllAux_run env css L N 1 [] [] fuel hgood hstop hfuel
  simpa [scrape_berita_all] using h

/-- A well-formed container with only a title anchor (text `t`, href
`l`). -/
def mkContainer (t l : String) : Container :=
  { titleElem := some { children := [Inline.txt t], attributes := [("href", some l)] }
    dateElem := none, descElem := none }

/-- The record `mkContainer t l` parses to. -/
def mkArticle (t l : String) : Article :=
  { title := t, link := some l, date := "No Date", description := "No Description" }

/-- Selector engine for the all-pages witnesses: page text `"p1"` holds
five containers, `"p2"` three, anything else none. -/
def cssAll : String → List Container := fun s =>
  if s = "p1" then
    [mkContainer "A1" "u1", mkContainer "A2" "u2", mkContainer "A3" "u3",
     mkContainer "A4" "u4", mkContainer "A5" "u5"]
  else if s = "p2" then
    [mkContainer "B1" "v1", mkContainer "B2" "v2", mkContainer "B3" "v3"]
  else []

/-- Network for the all-pages witnesses: pages 1 and 2 respond, page 3
fails at transport level. -/
def envAll : String → HttpOutcome := fun u =>
  if u = scrape_url 1 then .response 200 "p1"
  else if u = scrape_url 2 then .response 200 "p2"
  else .transportError "connection refused"

/-- The per-page article lists of `envAll`/`cssAll`. -/
def LAll : Int → List Article := fun p =>
  if p = 1 then
    [mkArticle "A1" "u1", mkArticle "A2" "u2", mkArticle "A3" "u3",
     mkArticle "A4" "u4", mkArticle "A5" "u5"]
  else if p = 2 then
    [mkArticle "B1" "v1", mkArticle "B2" "v2", mkArticle "B3" "v3"]
  else []

/-- Claim C5 witness: page 1 yields 5 articles, page 2 yields 3, page
3's fetch fails — the result is exactly those 8 articles, page-1
articles (in page order) before page-2 articles. -/
theorem scrape_all_concat_pages_witness :
    scrape_berita_all envAll cssAll 3 =
      some (.ok [mkArticle "A1" "u1", mkArticle "A2" "u2", mkArticle "A3" "u3",
                 mkArticle "A4" "u4", mkArticle "A5" "u5",
                 mkArticle "B1" "v1", mkArticle "B2" "v2", mkArticle "B3" "v3"],
            [scrape_url 1, scrape_url 2, scrape_url 3]) := by
  have h := scrape_all_concat_pages envAll cssAll LAll 2 3 (by decide) (by decide)
    (by decide)
  rw [h]
  decide

/-- Claim C6: with exactly `N` consecutive non-empty pages from page 1
followed by a stopping page, the loop terminates within fuel `N + 1`,
fetching exactly the `N + 1` consecutive listing URLs of pages
`1, 2, …, N + 1` — at most `N + 1` fetch attempts, starting at page 1,
advancing by exactly 1 per iteration. -/
theorem scrape_all_fetch_bound (env : String → HttpOutcome) (css : String → List Container)
    (L : Int → List Article) (N : Nat)
    (hgood : ∀ i : Nat, i < N → goodPage env css (1 + i) (L (1 + i)))
    (hstop : stopPage env css (1 + N)) :
    ∃ r, scrape_berita_all env css (N + 1) = some r ∧
      r.2 = fetchedUrls 1 (N + 1) ∧ r.2.length = N + 1 := by
  have h := scrapeAllAux_run env css L N 1 [] [] (N + 1) hgood hstop (by omega)
  have h2 : scrape_berita_all env css (N + 1) =
      some (.ok (concatPages L 1 N), fetchedUrls 1 (N + 1)) := by
    simpa [scrape_berita_all] using h
  exact ⟨(.ok (concatPages L 1 N), fetchedUrls 1 (N + 1)), h2, rfl,
    fetchedUrls_length 1 (N + 1)⟩

/-- Claim C6 witness: two non-empty pages and a failing third page give
termination within fuel 3 and exactly the three page URLs fetched. -/
theorem scrape_all_fetch_bound_witness :
    ∃ r, scrape_berita_all envAll cssAll 3 = some r ∧
      r.2 = fetchedUrls 1 3 ∧ r.2.length = 3 :=
  scrape_all_fetch_bound envAll cssAll LAll 2 (by decide) (by decide)

/-- If every page's containers are href-safe, the all-pages loop never
surfaces an exception: whenever it returns, the result is `.ok`. -/
theorem scrapeAllAux_ok_of_safe (env : String → HttpOutcome) (css : String → List Container)
    (hsafe : ∀ s : String, ∀ c ∈ css s, hrefSafe c = true) :
    ∀ (fuel : Nat) (page : Int) (acc : List Article) (trace : List String)
      (res : Except String (List Article) × List String),
      scrapeAllAux env css fuel page acc trace = some res → ∃ l, res.1 = .ok l := by
  intro fuel
  induction fuel with
  | zero =>
    intro page acc trace res h
    simp [scrapeAllAux] at h
  | succ f ih =>
    intro page acc trace res h
    rw [scrapeAllAux] at h
    cases hf : fetch_html env (scrape_url page) with
    | none =>
      rw [hf] at h
      simp only [truthyOptStr, Bool.false_eq_true, if_false] at h
      injection h with h
      exact ⟨acc, by rw [← h]⟩
    | some b =>
      rw [hf] at h
      cases hbe : b.isEmpty with
      | true =>
        simp only [truthyOptStr, hbe, Bool.not_true, Bool.false_eq_true, if_false] at h
        injection h with h
        exact ⟨acc, by rw [← h]⟩
      | false =>
        have hp2 : parse_articles css (some b) = .ok ((css b).map buildArticleD) := by
          simp [parse_articles, truthyOptStr, hbe, parseLoop_safe _ (hsafe b)]
        simp only [truthyOptStr, hbe, Bool.not_false, if_true] at h
        rw [hp2] at h
        cases hel : ((css b).map buildArticleD).isEmpty with
        | true =>
          simp only [hel, if_true] at h
          injection h with h
          exact ⟨acc, by rw [← h]⟩
        | false =>
          simp only [hel, Bool.false_eq_true, if_false] at h
          exact ih (page + 1) (acc ++ (css b).map buildArticleD)
            (trace ++ [scrape_url page]) res h

/-- Claim C9, amended.  All-pages retrieval returns the empty array
whenever the very first fetch (page 1) fails, and — provided every
parsed container has a valued `href` on its title anchor whenever the
anchor is present — every response it returns is a successful-looking
200 array (empty or partial), never an error status.  (As literally
stated the claim is false: a parse-time `KeyError` surfaces as a server
error, see the counterexample.) -/
theorem scrape_all_degrade (env : String → HttpOutcome) (css : String → List Container) :
    (fetch_html env (scrape_url 1) = none →
      ∀ fuel : Nat, 1 ≤ fuel →
        scrape_berita_all_endpoint env css fuel = some (.ok [], [scrape_url 1])) ∧
    ((∀ s : String, ∀ c ∈ css s, hrefSafe c = true) →
      ∀ (fuel : Nat) (r : ApiResult × List String),
        scrape_berita_all_endpoint env css fuel = some r → ∃ l, r.1 = ApiResult.ok l) := by
  constructor
  · intro hf fuel hfuel
    obtain ⟨f, rfl⟩ : ∃ f, fuel = f + 1 := ⟨fuel - 1, by omega⟩
    simp [scrape_berita_all_endpoint, scrape_berita_all, scrapeAllAux, hf, truthyOptStr]
  · intro hsafe fuel r hr
    unfold scrape_berita_all_endpoint at hr
    cases hres : scrape_berita_all env css fuel with
    | none => rw [hres] at hr; simp at hr
    | some q =>
      rw [hres] at hr
      obtain ⟨l, hl⟩ := scrapeAllAux_ok_of_safe env css hsafe fuel 1 [] [] q hres
      simp only [Option.map_some', Option.some.injEq] at hr
      subst hr
      exact ⟨l, by simp [hl]⟩

/-- Network where every URL fails at transport level. -/
def envFail : String → HttpOutcome := fun _ => .transportError "down"

/-- Claim C9 witness: when the first fetch fails, the endpoint serves
the empty 200 array after that single fetch. -/
theorem scrape_all_degrade_witness :
    scrape_berita_all_endpoint envFail cssAll 1 = some (.ok [], [scrape_url 1]) :=
  (scrape_all_degrade envFail cssAll).1 rfl 1 (by omega)

/-- Claim C9 counterexample: a page-1 container whose title anchor lacks
`href` makes the all-pages endpoint surface a server error (the escaped
`KeyError`), not a 200 array — the claim as stated is false. -/
theorem scrape_all_server_error_cex :
    scrape_berita_all_endpoint envBad cssBad 1 =
      some (.serverError "KeyError: href", [scrape_url 1]) := by rfl

/-- Claim C10: an empty-string body is treated exactly like a fetch
failure, because every branch tests Python truthiness: the parser
returns the empty sequence on `""`, the single-page endpoint returns the
empty array without consulting the selector engine, and the all-pages
loop terminates at that page with its accumulated articles — the same
outcomes as for an absent body. -/
theorem empty_body_like_failure (env : String → HttpOutcome) (css : String → List Container)
    (page : Int) (fuel : Nat) (acc : List Article) (trace : List String)
    (hp : 1 ≤ page) (hf : fetch_html env (scrape_url page) = some "") :
    parse_articles css (some "") = .ok [] ∧
    scrape_berita_endpoint env css page = (.ok [], [scrape_url page]) ∧
    scrapeAllAux env css (fuel + 1) page acc trace =
      some (.ok acc, trace ++ [scrape_url page]) := by
  have htr : truthyOptStr (some "") = false := rfl
  refine ⟨rfl, ?_, ?_⟩
  · have hh : scrape_berita env css page = .ok [] := by
      simp [scrape_berita, hf, htr]
    simp [scrape_berita_endpoint, hp, hh]
  · rw [scrapeAllAux, hf, htr]
    simp

/-- Network where every URL serves a 200 with an empty body. -/
def envEmpty : String → HttpOutcome := fun _ => .response 200 ""

/-- Claim C10 witness: with a 200 empty-body page 1 — and a selector
engine that would raise on any parsed page — the parser, the single-page
endpoint and the all-pages loop all take their fetch-failure outcomes. -/
theorem empty_body_like_failure_witness :
    parse_articles cssBad (some "") = .ok [] ∧
    scrape_berita_endpoint envEmpty cssBad 1 = (.ok [], [scrape_url 1]) ∧
    scrapeAllAux envEmpty cssBad 1 1 [] [] = some (.ok [], [] ++ [scrape_url 1]) :=
  empty_body_like_failure envEmpty cssBad 1 0 [] [] (by decide) rfl
